import Mathlib

/-!
Verification of the galangal-orchestrate workflow core against its
natural-language specification.

The development shallowly embeds the Python source:

* `galangal/core/workflow/core.py` — stage resolver (`get_next_stage`),
  stage executor (`execute_stage`), rollback controller (`handle_rollback`);
* `galangal/core/workflow/legacy_runner.py` — the legacy run loop's
  retry-ceiling handling;
* `galangal/ai/subprocess.py` — `SubprocessRunner.run` (process supervisor);
* `galangal/ai/claude.py` and `galangal/ai/codex.py` — backend adapters.

Pure functions become Lean functions; the poll loops become recursion over a
finite trace of observed environment events (poll results, output lines,
pause-flag samples, clock samples); Python exceptions become `Except` values;
the filesystem of temporary files becomes an association list threaded through
the adapters.  Modules of the repository that are not part of the provided
source tree (`galangal/core/state.py`, `galangal/results.py`, persistence) are
modelled from the specification; every such definition is marked
`Modelled from the spec:` in its doc comment.
-/

namespace Galangal

/-- Modelled from the spec: the `Stage` enumeration of
`galangal/core/state.py` (module absent from the source tree; the spec fixes
a totally ordered catalog of stages, `COMPLETE` terminal, and the callers in
the source name exactly these members). -/
inductive Stage where
  | PM
  | DESIGN
  | PREFLIGHT
  | DEV
  | MIGRATION
  | CONTRACT
  | TEST
  | BENCHMARK
  | REVIEW
  | SECURITY
  | QA
  | COMPLETE
deriving DecidableEq, Repr

/-- Modelled from the spec: `Stage.value`, the string name of a stage as used
in skip lists, stage plans and persisted state. -/
def Stage.value : Stage → String
  | .PM => "PM"
  | .DESIGN => "DESIGN"
  | .PREFLIGHT => "PREFLIGHT"
  | .DEV => "DEV"
  | .MIGRATION => "MIGRATION"
  | .CONTRACT => "CONTRACT"
  | .TEST => "TEST"
  | .BENCHMARK => "BENCHMARK"
  | .REVIEW => "REVIEW"
  | .SECURITY => "SECURITY"
  | .QA => "QA"
  | .COMPLETE => "COMPLETE"

/-- Modelled from the spec: `Stage.from_str` of `galangal/core/state.py`
(used by `execute_stage` as `Stage.from_str(result.rollback_to)`); inverse of
`Stage.value`, `none` on an unknown name. -/
def Stage.from_str (s : String) : Option Stage :=
  if s = "PM" then some .PM
  else if s = "DESIGN" then some .DESIGN
  else if s = "PREFLIGHT" then some .PREFLIGHT
  else if s = "DEV" then some .DEV
  else if s = "MIGRATION" then some .MIGRATION
  else if s = "CONTRACT" then some .CONTRACT
  else if s = "TEST" then some .TEST
  else if s = "BENCHMARK" then some .BENCHMARK
  else if s = "REVIEW" then some .REVIEW
  else if s = "SECURITY" then some .SECURITY
  else if s = "QA" then some .QA
  else if s = "COMPLETE" then some .COMPLETE
  else none

/-- Modelled from the spec: `STAGE_ORDER` of `galangal/core/state.py` — the
fixed linear order of stages, each stage appearing once, `COMPLETE` last. -/
def STAGE_ORDER : List Stage :=
  [.PM, .DESIGN, .PREFLIGHT, .DEV, .MIGRATION, .CONTRACT, .TEST,
   .BENCHMARK, .REVIEW, .SECURITY, .QA, .COMPLETE]

theorem STAGE_ORDER_nodup : STAGE_ORDER.Nodup := by decide

theorem stage_mem_STAGE_ORDER (s : Stage) : s ∈ STAGE_ORDER := by
  cases s <;> decide

/-- The result-type tag of `galangal/results.py` (module absent from the
source tree).  Modelled from the spec: `StageResult` is a tagged union with
exactly these variants. -/
inductive StageResultType where
  | SUCCESS
  | VALIDATION_FAILED
  | ROLLBACK_REQUIRED
  | CLARIFICATION_NEEDED
  | PREFLIGHT_FAILED
  | USER_DECISION_NEEDED
  | SKIPPED
  | PAUSED
  | TIMEOUT
  | MAX_TURNS
  | ERROR
deriving DecidableEq, Repr

/-- Modelled from the spec: the `StageResult` record of `galangal/results.py`
with the fields the source callers read (`type`, `message`, `output`,
`rollback_to`, `is_fast_track`, the seconds payload of `TimedOut`). -/
structure StageResult where
  type : StageResultType
  message : String := ""
  output : Option String := none
  rollback_to : Option Stage := none
  is_fast_track : Bool := false
  seconds : Option Nat := none
  details : Option String := none
deriving DecidableEq, Repr

/-- Modelled from the spec: a stage result counts as successful exactly when
it is a `Success` or a condition-based `Skipped`; every other variant is
propagated by the executor as a failure. -/
def StageResult.success (r : StageResult) : Bool :=
  r.type = .SUCCESS || r.type = .SKIPPED

def StageResult.create_success (message : String) (output : Option String := none) :
    StageResult :=
  { type := .SUCCESS, message := message, output := output }

def StageResult.skipped (message : String) : StageResult :=
  { type := .SKIPPED, message := message }

def StageResult.clarification_needed : StageResult :=
  { type := .CLARIFICATION_NEEDED,
    message := "Clarification required. Please provide ANSWERS.md." }

def StageResult.preflight_failed (message : String) (details : String) : StageResult :=
  { type := .PREFLIGHT_FAILED, message := message, details := some details }

def StageResult.validation_failed (message : String) : StageResult :=
  { type := .VALIDATION_FAILED, message := message }

def StageResult.rollback_required (message : String) (rollback_to : Stage)
    (output : Option String) (is_fast_track : Bool) : StageResult :=
  { type := .ROLLBACK_REQUIRED, message := message, rollback_to := some rollback_to,
    output := output, is_fast_track := is_fast_track }

def StageResult.user_decision_needed (message : String)
    (artifact_content : Option String) : StageResult :=
  { type := .USER_DECISION_NEEDED, message := message, output := artifact_content }

def StageResult.paused : StageResult :=
  { type := .PAUSED, message := "Paused by user request" }

def StageResult.timeout (s : Nat) : StageResult :=
  { type := .TIMEOUT, message := "Timed out after " ++ toString s ++ "s",
    seconds := some s }

def StageResult.max_turns (output : String) : StageResult :=
  { type := .MAX_TURNS, message := "Maximum turns reached", output := some output }

def StageResult.error (message : String) (output : Option String := none) :
    StageResult :=
  { type := .ERROR, message := message, output := output }

/-- Modelled from the spec: a `RollbackEntry` of the run state's bounded
rollback history — `(timestamp, from_stage, to_stage, reason)`.  Time is
modelled as seconds (`Nat`). -/
structure RollbackEntry where
  timestamp : Nat
  from_stage : Stage
  to_stage : Stage
  reason : String
deriving DecidableEq, Repr

/-- Modelled from the spec: the loop-prevention window of the rollback
controller — a trailing time window of one hour. -/
def ROLLBACK_WINDOW_SECONDS : Nat := 3600

/-- Modelled from the spec: the loop-prevention threshold of the rollback
controller — at most 2 prior rollbacks to the same target within the window;
the 3rd (count meets the threshold) is refused. -/
def ROLLBACK_LOOP_THRESHOLD : Nat := 3

/-- Modelled from the spec: the action recorded per stage by the stage-plan
override (`run`, `skip`, or anything else). -/
abbrev StagePlan := List (String × String)

/-- Modelled from the spec: `WorkflowState` of `galangal/core/state.py` (the
spec's `RunState`) with the fields read and written by the source in
`core/workflow/`: current stage, attempt counter, last failure message,
rollback history, fast-track flag and passed-stage set, stage-plan override,
and the two hard-stop flags. -/
structure WorkflowState where
  task_name : String
  task_type : String
  stage : Stage
  attempt : Nat
  last_failure : Option String := none
  clarification_required : Bool := false
  awaiting_approval : Bool := false
  rollback_history : List RollbackEntry := []
  fast_track : Bool := false
  passed_stages : List Stage := []
  stage_plan : Option StagePlan := none
deriving DecidableEq, Repr

/-- Modelled from the spec: `WorkflowState.get_rollback_count` — the number of
recorded rollback entries whose target equals `target` inside the trailing
time window ending at `now`. -/
def WorkflowState.get_rollback_count (s : WorkflowState) (target : Stage)
    (now : Nat) : Nat :=
  (s.rollback_history.filter
    (fun e => e.to_stage = target ∧ now ≤ e.timestamp + ROLLBACK_WINDOW_SECONDS)).length

/-- Modelled from the spec: `WorkflowState.should_allow_rollback` — refuse
when the in-window count of rollbacks to `target` meets or exceeds the
threshold. -/
def WorkflowState.should_allow_rollback (s : WorkflowState) (target : Stage)
    (now : Nat) : Bool :=
  s.get_rollback_count target now < ROLLBACK_LOOP_THRESHOLD

/-- Modelled from the spec: `WorkflowState.record_rollback` — append-only
record of a rollback event in the state history. -/
def WorkflowState.record_rollback (s : WorkflowState) (from_stage target : Stage)
    (reason : String) (now : Nat) : WorkflowState :=
  { s with rollback_history :=
      s.rollback_history ++ [⟨now, from_stage, target, reason⟩] }

/-- Modelled from the spec: `WorkflowState.setup_fast_track` — mark fast-track
active, retaining the set of already-passed stages. -/
def WorkflowState.setup_fast_track (s : WorkflowState) : WorkflowState :=
  { s with fast_track := true }

/-- Modelled from the spec: `WorkflowState.clear_fast_track`. -/
def WorkflowState.clear_fast_track (s : WorkflowState) : WorkflowState :=
  { s with fast_track := false }

/-- Modelled from the spec: `WorkflowState.clear_passed_stages`. -/
def WorkflowState.clear_passed_stages (s : WorkflowState) : WorkflowState :=
  { s with passed_stages := [] }

/-- Modelled from the spec: `WorkflowState.reset_attempts` — reset the
attempt counter to 1; keep the last failure when `clear_failure` is false. -/
def WorkflowState.reset_attempts (s : WorkflowState) (clear_failure : Bool) :
    WorkflowState :=
  { s with attempt := 1,
           last_failure := if clear_failure then none else s.last_failure }

/-- Modelled from the spec: `WorkflowState.should_fast_track_skip` — a stage
is fast-track-skipped when fast-track is active and the stage already passed
in the current window. -/
def WorkflowState.should_fast_track_skip (s : WorkflowState) (st : Stage) : Bool :=
  s.fast_track && s.passed_stages.contains st

/-! ## Stage Resolver — `get_next_stage` of `core/workflow/core.py` -/

/-- The external collaborators consulted by `get_next_stage`
(`core/workflow/core.py`, lines 163–231): the static config skip list
(`config.stages.skip`), the task-type exclusion (`should_skip_for_task_type`
of the absent `state.py`, taking the stage and the task type), the artifact
store (`artifact_exists`, task fixed), and the external Validator's
glob-condition check (`ValidationRunner.should_skip_stage`, task fixed). -/
structure ResolverEnv where
  configSkip : List String
  should_skip_for_task_type : Stage → String → Bool
  artifact_exists : String → Bool
  should_skip_stage : String → Bool

/-- `CONDITIONAL_STAGES` of `core/workflow/core.py` (computed there from
`get_conditional_stages()` of the absent `state.py`): the conditional stages
MIGRATION, CONTRACT and BENCHMARK mapped to their manual skip artifacts. -/
def CONDITIONAL_STAGES : Stage → Option String
  | .MIGRATION => some "MIGRATION_SKIP.md"
  | .CONTRACT => some "CONTRACT_SKIP.md"
  | .BENCHMARK => some "BENCHMARK_SKIP.md"
  | _ => none

/-- The stage-plan lookup `state.stage_plan[next_stage.value].get("action")`
guarded by the Python truthiness test `state.stage_plan and next_stage.value
in state.stage_plan`. -/
def planAction (state : WorkflowState) (st : Stage) : Option String :=
  match state.stage_plan with
  | none => none
  | some plan => plan.lookup st.value

/-- `get_next_stage` of `core/workflow/core.py` (lines 163–231), recursion on
the stage index written with fuel; `STAGE_ORDER.length` fuel is enough since
the index strictly grows at every recursive call (`get_next_stage` below
always supplies it).  Branches in source order: config skip list, task-type
skip, fast-track skip, stage-plan "skip", then for conditional stages the
manual skip artifact, the stage-plan "run" short-circuit, and the validator's
glob condition. -/
def get_next_stage_aux (env : ResolverEnv) (state : WorkflowState) :
    Nat → Stage → Option Stage
  | 0, _ => none
  | fuel + 1, current =>
    let idx := STAGE_ORDER.indexOf current
    if idx + 1 ≥ STAGE_ORDER.length then none
    else
      let next := STAGE_ORDER.getD (idx + 1) .COMPLETE
      if (env.configSkip.map String.toUpper).contains next.value then
        get_next_stage_aux env state fuel next
      else if env.should_skip_for_task_type next state.task_type then
        get_next_stage_aux env state fuel next
      else if state.should_fast_track_skip next then
        get_next_stage_aux env state fuel next
      else if planAction state next = some "skip" then
        get_next_stage_aux env state fuel next
      else
        match CONDITIONAL_STAGES next with
        | some skip_artifact =>
          if env.artifact_exists skip_artifact then
            get_next_stage_aux env state fuel next
          else if planAction state next = some "run" then
            some next
          else if env.should_skip_stage next.value.toUpper then
            get_next_stage_aux env state fuel next
          else some next
        | none => some next

/-- `get_next_stage(current, state)` of `core/workflow/core.py`. -/
def get_next_stage (env : ResolverEnv) (state : WorkflowState)
    (current : Stage) : Option Stage :=
  get_next_stage_aux env state STAGE_ORDER.length current

/-- The immediate successor index fact used by the resolver proofs: stepping
to `STAGE_ORDER[idx+1]` strictly increases the index (the list has no
duplicate stages). -/
theorem indexOf_stage_succ (c : Stage) (h : STAGE_ORDER.indexOf c + 1 < STAGE_ORDER.length) :
    STAGE_ORDER.indexOf (STAGE_ORDER.getD (STAGE_ORDER.indexOf c + 1) .COMPLETE) =
      STAGE_ORDER.indexOf c + 1 := by
  revert h
  cases c <;> decide

/-- The environment and state fire no skip rule at all. -/
def NoSkipRules (env : ResolverEnv) (state : WorkflowState) : Prop :=
  env.configSkip = [] ∧
  (∀ st tt, env.should_skip_for_task_type st tt = false) ∧
  state.fast_track = false ∧
  state.stage_plan = none ∧
  (∀ a, env.artifact_exists a = false) ∧
  (∀ n, env.should_skip_stage n = false)

theorem get_next_stage_aux_lt (env : ResolverEnv) (state : WorkflowState) :
    ∀ (fuel : Nat) (current s : Stage),
      get_next_stage_aux env state fuel current = some s →
      STAGE_ORDER.indexOf current < STAGE_ORDER.indexOf s := by
  intro fuel
  induction fuel with
  | zero => intro current s h; simp [get_next_stage_aux] at h
  | succ n ih =>
    intro current s h
    rw [get_next_stage_aux] at h
    by_cases hlast : STAGE_ORDER.indexOf current + 1 ≥ STAGE_ORDER.length
    · simp [hlast] at h
    · simp only [hlast, if_false] at h
      have hlt : STAGE_ORDER.indexOf current + 1 < STAGE_ORDER.length := by omega
      have hidx := indexOf_stage_succ current hlt
      set next := STAGE_ORDER.getD (STAGE_ORDER.indexOf current + 1) .COMPLETE with hnext
      have step : ∀ (h' : get_next_stage_aux env state n next = some s),
          STAGE_ORDER.indexOf current < STAGE_ORDER.indexOf s := by
        intro h'
        have := ih next s h'
        omega
      have keep : ∀ (h' : some next = some s),
          STAGE_ORDER.indexOf current < STAGE_ORDER.indexOf s := by
        intro h'
        have : next = s := by injection h'
        subst this
        omega
      split at h
      · exact step h
      · split at h
        · exact step h
        · split at h
          · exact step h
          · split at h
            · exact step h
            · split at h
              · split at h
                · exact step h
                · split at h
                  · exact keep h
                  · split at h
                    · exact step h
                    · exact keep h
              · exact keep h

/-- A resolver environment in which no skip rule ever fires. -/
def noskipEnv : ResolverEnv :=
  { configSkip := []
    should_skip_for_task_type := fun _ _ => false
    artifact_exists := fun _ => false
    should_skip_stage := fun _ => false }

/-- A run state whose stage plan marks the terminal stage COMPLETE as
"skip"; every other skip input is inert. -/
def planSkipsCompleteState : WorkflowState :=
  { task_name := "t", task_type := "FEATURE", stage := .QA, attempt := 1,
    stage_plan := some [("COMPLETE", "skip")] }

/-- C1 counterexample: with a run state whose stage-plan override marks the
terminal stage COMPLETE as "skip", `get_next_stage` applied at QA — which is
not the last stage of `STAGE_ORDER` — returns `None`, refuting "returns None
if and only if the current stage is the last stage in the order". -/
theorem C1_resolver_counterexample :
    get_next_stage noskipEnv planSkipsCompleteState .QA = none ∧
    Stage.QA ≠ Stage.COMPLETE ∧
    STAGE_ORDER.getLast? = some Stage.COMPLETE :=
  ⟨rfl, by decide, by decide⟩

/-- C1 (amended): for every environment, run state and current stage, any
stage returned by `get_next_stage` lies strictly later than `current` in
`STAGE_ORDER` (in particular it is never `current` itself or an earlier
stage); `None` is returned when `current` is the last stage (COMPLETE); and
when no skip rule fires, the resolver returns exactly the immediate
successor, so that `None` is returned only at the last stage.  (The
unamended "None only if last" fails when a skip rule covers the terminal
stage, per the counterexample.) -/
theorem C1_resolver_amended (env : ResolverEnv) (state : WorkflowState)
    (current : Stage) :
    (∀ s, get_next_stage env state current = some s →
      STAGE_ORDER.indexOf current < STAGE_ORDER.indexOf s ∧ s ≠ current) ∧
    (current = .COMPLETE → get_next_stage env state current = none) ∧
    (NoSkipRules env state → current ≠ .COMPLETE →
      get_next_stage env state current =
        some (STAGE_ORDER.getD (STAGE_ORDER.indexOf current + 1) .COMPLETE)) := by
  refine ⟨?_, ?_, ?_⟩
  · intro s h
    have hlt := get_next_stage_aux_lt env state STAGE_ORDER.length current s h
    refine ⟨hlt, ?_⟩
    intro hEq
    subst hEq
    omega
  · intro hc
    subst hc
    have hge : STAGE_ORDER.indexOf Stage.COMPLETE + 1 ≥ STAGE_ORDER.length := by decide
    simp [get_next_stage, get_next_stage_aux, hge]
  · intro hns hne
    rcases hns with ⟨h1, h2, h3, h4, h5, h6⟩
    have hlt : STAGE_ORDER.indexOf current + 1 < STAGE_ORDER.length := by
      cases current <;> first | decide | exact absurd rfl hne
    show get_next_stage_aux env state (11 + 1) current = _
    rw [get_next_stage_aux]
    have hguard : ¬ (STAGE_ORDER.indexOf current + 1 ≥ STAGE_ORDER.length) := by omega
    simp only [hguard, if_false]
    set next := STAGE_ORDER.getD (STAGE_ORDER.indexOf current + 1) .COMPLETE with hnext
    rw [h1]
    simp only [List.map_nil, List.contains_nil, Bool.false_eq_true, if_false,
      h2 next state.task_type, WorkflowState.should_fast_track_skip, h3,
      Bool.false_and, planAction, h4]
    cases hc : CONDITIONAL_STAGES next with
    | none => simp
    | some art =>
      simp [h5 art, h6 next.value.toUpper]

/-- C1 witness: at the concrete no-skip environment and a fresh PM-typed run
state, the resolver advances QA to its immediate successor COMPLETE, and the
progress part holds there. -/
theorem C1_resolver_amended_witness :
    get_next_stage noskipEnv
      { task_name := "t", task_type := "FEATURE", stage := .QA, attempt := 1 }
      .QA = some .COMPLETE :=
  (C1_resolver_amended noskipEnv
      { task_name := "t", task_type := "FEATURE", stage := .QA, attempt := 1 }
      .QA).2.2
    ⟨rfl, fun _ _ => rfl, rfl, rfl, fun _ => rfl, fun _ => rfl⟩ (by decide)

/-! ## Rollback Controller — `handle_rollback` of `core/workflow/core.py` -/

/-- `handle_rollback(state, result)` of `core/workflow/core.py` (lines
534–624) as a pure state transformer; `now` is the clock read when the loop
check and the history timestamp are taken.  Returns the bool result of the
source function together with the updated state.  The `ROLLBACK.md` artifact
append and logging calls are collaborator side effects outside the run
state. -/
def handle_rollback (state : WorkflowState) (result : StageResult) (now : Nat) :
    Bool × WorkflowState :=
  if result.type ≠ .ROLLBACK_REQUIRED ∨ result.rollback_to = none then
    (false, state)
  else
    match result.rollback_to with
    | none => (false, state)
    | some target =>
      if ! state.should_allow_rollback target now then
        (false, state)
      else
        let s1 := state.record_rollback state.stage target result.message now
        let s2 := if result.is_fast_track then s1.setup_fast_track
                  else s1.clear_fast_track.clear_passed_stages
        let s3 := { s2 with
                    stage := target
                    last_failure := some ("Rollback from " ++ state.stage.value
                      ++ ": " ++ result.message) }
        (true, s3.reset_attempts false)

/-- C2: when the in-window rollback count for the result's target stage meets
or exceeds the threshold, `handle_rollback` returns `false` and leaves the run
state untouched; a rollback request whose target has an in-window count below
the threshold is still allowed. -/
theorem C2_rollback_loop_prevention (state : WorkflowState) (now : Nat)
    (resX resY : StageResult) (X Y : Stage)
    (hXty : resX.type = .ROLLBACK_REQUIRED) (hXt : resX.rollback_to = some X)
    (hblock : ROLLBACK_LOOP_THRESHOLD ≤ state.get_rollback_count X now)
    (hYty : resY.type = .ROLLBACK_REQUIRED) (hYt : resY.rollback_to = some Y)
    (hallow : state.get_rollback_count Y now < ROLLBACK_LOOP_THRESHOLD) :
    handle_rollback state resX now = (false, state) ∧
    (handle_rollback state resY now).1 = true := by
  constructor
  · have hX : state.should_allow_rollback X now = false := by
      unfold WorkflowState.should_allow_rollback
      simp only [decide_eq_false_iff_not]
      omega
    simp [handle_rollback, hXty, hXt, hX]
  · have hY : state.should_allow_rollback Y now = true := by
      unfold WorkflowState.should_allow_rollback
      simpa using hallow
    simp [handle_rollback, hYty, hYt, hY]

/-- A run state with three recorded rollbacks to DEV inside the trailing
window at time 300. -/
def threeRollbacksToDev : WorkflowState :=
  { task_name := "t", task_type := "FEATURE", stage := .QA, attempt := 2,
    rollback_history :=
      [⟨100, .QA, .DEV, "a"⟩, ⟨200, .TEST, .DEV, "b"⟩, ⟨300, .QA, .DEV, "c"⟩] }

/-- C2 witness: after three in-window rollbacks to DEV, a fourth rollback
request to DEV is refused without mutating the state, while a rollback
request to DESIGN in the same window is allowed. -/
theorem C2_rollback_loop_prevention_witness :
    handle_rollback threeRollbacksToDev
      (StageResult.rollback_required "qa failed" .DEV none false) 300 =
      (false, threeRollbacksToDev) ∧
    (handle_rollback threeRollbacksToDev
      (StageResult.rollback_required "design broken" .DESIGN none false) 300).1 =
      true :=
  C2_rollback_loop_prevention threeRollbacksToDev 300
    (StageResult.rollback_required "qa failed" .DEV none false)
    (StageResult.rollback_required "design broken" .DESIGN none false)
    .DEV .DESIGN rfl rfl (by decide) rfl rfl (by decide)

/-- C3: an allowed rollback appends the rollback entry to the state history,
sets the current stage to the target, resets the attempt counter to 1, stores
the reason (prefixed with the source stage) as the last-failure context, and
— depending on the result's fast-track flag — either marks fast-track active
retaining the passed-stage set, or clears the flag and the set. -/
theorem C3_rollback_state_update (state : WorkflowState) (res : StageResult)
    (now : Nat) (T : Stage)
    (hty : res.type = .ROLLBACK_REQUIRED) (htgt : res.rollback_to = some T)
    (hallow : state.get_rollback_count T now < ROLLBACK_LOOP_THRESHOLD) :
    (handle_rollback state res now).1 = true ∧
    (handle_rollback state res now).2.rollback_history =
      state.rollback_history ++ [⟨now, state.stage, T, res.message⟩] ∧
    (handle_rollback state res now).2.stage = T ∧
    (handle_rollback state res now).2.attempt = 1 ∧
    (handle_rollback state res now).2.last_failure =
      some ("Rollback from " ++ state.stage.value ++ ": " ++ res.message) ∧
    (res.is_fast_track = true →
      (handle_rollback state res now).2.fast_track = true ∧
      (handle_rollback state res now).2.passed_stages = state.passed_stages) ∧
    (res.is_fast_track = false →
      (handle_rollback state res now).2.fast_track = false ∧
      (handle_rollback state res now).2.passed_stages = []) := by
  have hA : state.should_allow_rollback T now = true := by
    unfold WorkflowState.should_allow_rollback
    simpa using hallow
  cases hft : res.is_fast_track <;>
    simp [handle_rollback, hty, htgt, hA, hft, WorkflowState.record_rollback,
      WorkflowState.setup_fast_track, WorkflowState.clear_fast_track,
      WorkflowState.clear_passed_stages, WorkflowState.reset_attempts]

/-- A run state that already passed TEST and REVIEW, with no recorded
rollbacks. -/
def passedTestReview : WorkflowState :=
  { task_name := "t", task_type := "FEATURE", stage := .QA, attempt := 3,
    passed_stages := [.TEST, .REVIEW] }

/-- C3 witness: a fast-track rollback from QA to DEV at time 50 appends the
entry, moves the stage, resets the attempt, stores the context, marks
fast-track and keeps the passed stages. -/
theorem C3_rollback_state_update_witness :
    (handle_rollback passedTestReview
      (StageResult.rollback_required "minor fix" .DEV none true) 50).1 = true ∧
    (handle_rollback passedTestReview
      (StageResult.rollback_required "minor fix" .DEV none true) 50).2.rollback_history =
      passedTestReview.rollback_history ++ [⟨50, passedTestReview.stage, .DEV, (StageResult.rollback_required "minor fix" .DEV none true).message⟩] ∧
    (handle_rollback passedTestReview
      (StageResult.rollback_required "minor fix" .DEV none true) 50).2.stage = .DEV ∧
    (handle_rollback passedTestReview
      (StageResult.rollback_required "minor fix" .DEV none true) 50).2.attempt = 1 ∧
    (handle_rollback passedTestReview
      (StageResult.rollback_required "minor fix" .DEV none true) 50).2.last_failure =
      some ("Rollback from " ++ passedTestReview.stage.value ++ ": " ++ (StageResult.rollback_required "minor fix" .DEV none true).message) ∧
    ((StageResult.rollback_required "minor fix" .DEV none true).is_fast_track = true →
      (handle_rollback passedTestReview
        (StageResult.rollback_required "minor fix" .DEV none true) 50).2.fast_track = true ∧
      (handle_rollback passedTestReview
        (StageResult.rollback_required "minor fix" .DEV none true) 50).2.passed_stages = passedTestReview.passed_stages) ∧
    ((StageResult.rollback_required "minor fix" .DEV none true).is_fast_track = false →
      (handle_rollback passedTestReview
        (StageResult.rollback_required "minor fix" .DEV none true) 50).2.fast_track = false ∧
      (handle_rollback passedTestReview
        (StageResult.rollback_required "minor fix" .DEV none true) 50).2.passed_stages = []) :=
  C3_rollback_state_update passedTestReview
    (StageResult.rollback_required "minor fix" .DEV none true) 50 .DEV
    rfl rfl (by decide)

/-! ## Process Supervisor — `SubprocessRunner.run` of `ai/subprocess.py` -/

/-- `RunOutcome` of `ai/subprocess.py`. -/
inductive RunOutcome where
  | COMPLETED
  | PAUSED
  | TIMEOUT
deriving DecidableEq, Repr

/-- `RunResult` of `ai/subprocess.py`. -/
structure RunResult where
  outcome : RunOutcome
  exit_code : Option Int
  output : String
  timeout_seconds : Option Nat := none
deriving DecidableEq, Repr

def RunResult.completed (r : RunResult) : Bool := r.outcome = .COMPLETED

def RunResult.paused (r : RunResult) : Bool := r.outcome = .PAUSED

def RunResult.timed_out (r : RunResult) : Bool := r.outcome = .TIMEOUT

/-- What happened to the spawned operating-system process by the time
`SubprocessRunner.run` returns: never started, reaped after normal exit,
terminated gracefully (pause path), or force-killed (timeout and exception
paths). -/
inductive ProcessFate where
  | notStarted
  | exited
  | terminated
  | killed
deriving DecidableEq, Repr

/-- One iteration of the supervisor poll loop as observed from the
environment: the `process.poll()` answer, the output lines drained
non-blocking this iteration, an uncaught exception surfacing during the
iteration (callback failures — the supervisor catches only select/readline
errors inside `_read_output`), the `pause_check()` sample, and the elapsed
wall-clock seconds at the timeout check. -/
structure RunStep where
  retcode : Option Int
  lines : List String
  raiseExn : Option String
  pause : Bool
  elapsed : Nat
deriving Repr

/-- The environment of one `SubprocessRunner.run` call: configured timeout,
whether a `pause_check` callback was supplied, whether `subprocess.Popen`
itself raised (process failed to start — this happens before the `try`
block), the iteration trace, and the remaining output collected by
`_capture_remaining` after a normal exit. -/
structure RunEnv where
  timeout : Nat
  hasPauseCheck : Bool
  spawnFail : Option String
  steps : List RunStep
  remaining : String
deriving Repr

/-- The lines accumulated by a list of loop iterations. -/
def collect_lines : List RunStep → List String
  | [] => []
  | s :: r => s.lines ++ collect_lines r

/-- The poll loop of `SubprocessRunner.run` (`ai/subprocess.py` lines
136–201).  Per iteration, in source order: drain output, surface an uncaught
exception (the `except Exception` clause kills the process and re-raises),
break on a poll result (then collect remaining output and return
`COMPLETED`), return `PAUSED` on a pause request (graceful termination),
return `TIMEOUT` once elapsed time exceeds the timeout (force kill).  `none`
means the trace ended with the process still running. -/
def subprocess_run_loop (env : RunEnv) :
    List RunStep → List String → Option (Except String RunResult × ProcessFate)
  | [], _ => none
  | step :: rest, acc0 =>
    let acc := acc0 ++ step.lines
    match step.raiseExn with
    | some e => some (.error e, .killed)
    | none =>
      match step.retcode with
      | some rc =>
        some (.ok { outcome := .COMPLETED, exit_code := some rc,
                    output := String.join acc ++ env.remaining }, .exited)
      | none =>
        if env.hasPauseCheck && step.pause then
          some (.ok { outcome := .PAUSED, exit_code := none,
                      output := String.join acc }, .terminated)
        else if step.elapsed > env.timeout then
          some (.ok { outcome := .TIMEOUT, exit_code := none,
                      output := String.join acc,
                      timeout_seconds := some env.timeout }, .killed)
        else subprocess_run_loop env rest acc

/-- `SubprocessRunner.run` of `ai/subprocess.py` (lines 116–201).
`subprocess.Popen` runs before the supervised `try`: a spawn failure
propagates with no process started. -/
def subprocess_run (env : RunEnv) :
    Option (Except String RunResult × ProcessFate) :=
  match env.spawnFail with
  | some e => some (.error e, .notStarted)
  | none => subprocess_run_loop env env.steps []

/-- A loop iteration that triggers none of the supervisor's exits. -/
def ContinueStep (env : RunEnv) (s : RunStep) : Prop :=
  s.raiseExn = none ∧ s.retcode = none ∧
  (env.hasPauseCheck && s.pause) = false ∧ s.elapsed ≤ env.timeout

theorem subprocess_run_loop_append (env : RunEnv) :
    ∀ (pre : List RunStep) (rest : List RunStep) (acc : List String),
      (∀ p ∈ pre, ContinueStep env p) →
      subprocess_run_loop env (pre ++ rest) acc =
        subprocess_run_loop env rest (acc ++ collect_lines pre) := by
  intro pre
  induction pre with
  | nil => intro rest acc _; simp [collect_lines]
  | cons p pre ih =>
    intro rest acc hc
    obtain ⟨h1, h2, h3, h4⟩ := hc p (List.mem_cons_self p pre)
    have hrest : ∀ q ∈ pre, ContinueStep env q := fun q hq =>
      hc q (List.mem_cons_of_mem p hq)
    have hto : ¬ (p.elapsed > env.timeout) := by omega
    simp only [List.cons_append, subprocess_run_loop, h1, h2, h3, hto,
      Bool.false_eq_true, if_false, collect_lines]
    rw [show pre.append rest = pre ++ rest from rfl]
    rw [ih rest (acc ++ p.lines) hrest]
    simp [List.append_assoc]

/-- Does a supervisor call outcome carry `RunOutcome.COMPLETED`? -/
def isCompletedOutcome (o : Option (Except String RunResult × ProcessFate)) :
    Bool :=
  match o with
  | some (.ok r, _) => r.completed
  | _ => false

/-- A run in which the first poll iteration hits an uncaught pipe error after
one partial output line. -/
def pipeErrorEnv : RunEnv :=
  { timeout := 100, hasPauseCheck := false, spawnFail := none,
    steps := [{ retcode := none, lines := ["partial output\n"],
                raiseExn := some "broken pipe", pause := false, elapsed := 0 }],
    remaining := "" }

/-- C4 counterexample: on a supervisor-level exception (`broken pipe` during
the poll loop) `SubprocessRunner.run` kills the process and re-raises the
exception; it does not return a result with outcome `Completed` and a
synthetic exit code as claimed. -/
theorem C4_supervisor_counterexample :
    subprocess_run pipeErrorEnv = some (.error "broken pipe", .killed) ∧
    isCompletedOutcome (subprocess_run pipeErrorEnv) = false :=
  ⟨rfl, rfl⟩

/-- C4 (amended): supervisor-level exceptions are not converted into a
`Completed` result.  A failure of `subprocess.Popen` itself propagates with
no process started (the spawn happens before the `try` block); an uncaught
exception during the poll loop force-kills the process and then re-raises.
In both cases the exception reaches the caller. -/
theorem C4_supervisor_amended (env : RunEnv) :
    (∀ e, env.spawnFail = some e →
      subprocess_run env = some (.error e, .notStarted)) ∧
    (∀ (pre : List RunStep) (s : RunStep) (rest : List RunStep) (e : String),
      env.spawnFail = none → env.steps = pre ++ s :: rest →
      (∀ p ∈ pre, ContinueStep env p) → s.raiseExn = some e →
      subprocess_run env = some (.error e, .killed)) := by
  constructor
  · intro e he
    simp [subprocess_run, he]
  · intro pre s rest e hsp hsteps hpre hexn
    simp only [subprocess_run, hsp]
    rw [hsteps, subprocess_run_loop_append env pre (s :: rest) [] hpre]
    simp [subprocess_run_loop, hexn]

/-- A run whose command could not be started at all. -/
def spawnFailEnv : RunEnv :=
  { timeout := 5, hasPauseCheck := false,
    spawnFail := some "No such file or directory", steps := [], remaining := "" }

/-- C4 witness: the amended behaviour at two concrete runs — a spawn failure
propagates unstarted, and an in-loop pipe error propagates after the kill. -/
theorem C4_supervisor_amended_witness :
    subprocess_run spawnFailEnv =
      some (.error "No such file or directory", .notStarted) ∧
    subprocess_run pipeErrorEnv = some (.error "broken pipe", .killed) :=
  ⟨(C4_supervisor_amended spawnFailEnv).1 "No such file or directory" rfl,
   (C4_supervisor_amended pipeErrorEnv).2 []
     { retcode := none, lines := ["partial output\n"],
       raiseExn := some "broken pipe", pause := false, elapsed := 0 }
     [] "broken pipe" rfl rfl (by intro p hp; exact absurd hp (List.not_mem_nil p)) rfl⟩

/-- C5: if the process is still running (no poll result), no pause fires and
no exception surfaces while the elapsed wall clock exceeds the configured
timeout, `SubprocessRunner.run` force-kills the process and returns outcome
`TimedOut` carrying the output collected so far and the timeout value; the
process does not outlive the call. -/
theorem C5_supervisor_timeout (env : RunEnv) (pre : List RunStep) (s : RunStep)
    (rest : List RunStep)
    (hsp : env.spawnFail = none) (hsteps : env.steps = pre ++ s :: rest)
    (hpre : ∀ p ∈ pre, ContinueStep env p)
    (hexn : s.raiseExn = none) (hret : s.retcode = none)
    (hpause : (env.hasPauseCheck && s.pause) = false)
    (hto : s.elapsed > env.timeout) :
    subprocess_run env =
      some (.ok { outcome := .TIMEOUT, exit_code := none,
                  output := String.join (collect_lines pre ++ s.lines),
                  timeout_seconds := some env.timeout }, .killed) := by
  simp only [subprocess_run, hsp]
  rw [hsteps, subprocess_run_loop_append env pre (s :: rest) [] hpre]
  simp [subprocess_run_loop, hexn, hret, hpause, hto]

/-- A run with a 2-second timeout: one quiet in-time iteration, then an
iteration that finds the process still running at 3 elapsed seconds. -/
def timeoutEnv : RunEnv :=
  { timeout := 2, hasPauseCheck := true, spawnFail := none,
    steps := [{ retcode := none, lines := ["tick\n"], raiseExn := none,
                pause := false, elapsed := 1 },
              { retcode := none, lines := [], raiseExn := none,
                pause := false, elapsed := 3 }],
    remaining := "" }

/-- C5 witness: the 2-second-timeout run returns `TimedOut` with the output
collected so far, the timeout value, and the process killed. -/
theorem C5_supervisor_timeout_witness :
    subprocess_run timeoutEnv =
      some (.ok { outcome := .TIMEOUT, exit_code := none,
                  output := String.join (collect_lines
                    [{ retcode := none, lines := ["tick\n"], raiseExn := none,
                       pause := false, elapsed := 1 }] ++ []),
                  timeout_seconds := some 2 }, .killed) :=
  C5_supervisor_timeout timeoutEnv
    [{ retcode := none, lines := ["tick\n"], raiseExn := none,
       pause := false, elapsed := 1 }]
    { retcode := none, lines := [], raiseExn := none, pause := false,
      elapsed := 3 }
    []
    rfl rfl
    (by
      intro p hp
      rw [List.mem_singleton] at hp
      subst hp
      exact ⟨rfl, rfl, rfl, by decide⟩)
    rfl rfl rfl (by decide)

/-! ## Legacy Run Loop — `_run_workflow_legacy` of
`core/workflow/legacy_runner.py` -/

/-- A Python runtime error surfacing from a mis-typed call. -/
inductive PyError where
  | typeError (msg : String)
  | attributeError (msg : String)
deriving DecidableEq, Repr

/-- The call `success, message = execute_stage(state)` at
`legacy_runner.py` line 47.  The imported `execute_stage` is the one of
`core/workflow/core.py`, whose signature is
`execute_stage(state, tui_app, pause_check=None) -> StageResult`: invoking it
with a single positional argument raises `TypeError` before the body runs
(and, were the argument supplied, tuple-unpacking the returned `StageResult`
would raise `TypeError` as well). -/
def legacy_execute_stage_call (_state : WorkflowState) :
    Except PyError (Bool × String) :=
  .error (.typeError
    "execute_stage() missing 1 required positional argument: tui_app")

/-- One iteration of the inner `while state.stage != Stage.COMPLETE` loop of
`_run_workflow_legacy` (lines 42–51): exit when the stage is COMPLETE, handle
a pending pause, otherwise call `execute_stage(state)`; an uncaught Python
error propagates out of the loop.  `ok none` = loop left without a stage
result, `ok (some r)` = the iteration produced `(success, message)`. -/
def legacy_runner_iteration (state : WorkflowState) (pauseRequested : Bool) :
    Except PyError (Option (Bool × String)) :=
  if state.stage = .COMPLETE then .ok none
  else if pauseRequested then .ok none
  else
    match legacy_execute_stage_call state with
    | .error e => .error e
    | .ok sm => .ok (some sm)

/-- The choices offered by the ceiling-exceeded prompt of
`_run_workflow_legacy` (lines 97–132): `1` retry with reset attempts, `2`
add feedback and roll back to DEV, `3` quit. -/
inductive CeilingChoice where
  | retry
  | fixInDev
  | quit
deriving DecidableEq, Repr

/-- The decision taken by the legacy runner after a stage failure. -/
inductive FailDecision where
  | autoRetry (attempt : Nat)
  | ceilingExceeded (choices : List CeilingChoice)
deriving DecidableEq, Repr

/-- The failure-accounting branch of `_run_workflow_legacy` (lines 85–133)
for a plain validation failure (no preflight prefix, no approval or
clarification flag, no rollback): increment the attempt counter; once it
exceeds `max_retries`, surface the ceiling-exceeded prompt with the human
choices retry / fix in DEV / quit instead of another automatic retry. -/
def legacy_failure_step (max_retries attempt : Nat) : FailDecision :=
  let attempt2 := attempt + 1
  if attempt2 > max_retries then
    .ceilingExceeded [.retry, .fixInDev, .quit]
  else
    .autoRetry attempt2

/-- A concrete mid-pipeline run state for evaluating the legacy loop. -/
def testStageState : WorkflowState :=
  { task_name := "t", task_type := "FEATURE", stage := .TEST, attempt := 1 }

/-- C6: the retry-ceiling accounting of `_run_workflow_legacy` (with the
default ceiling 3) would auto-retry after the 1st and 2nd consecutive
failures and surface the ceiling-exceeded human choice (retry / fix in DEV /
quit) after the 3rd — but the loop never reaches it: its call
`execute_stage(state)` passes one positional argument to the three-parameter
`execute_stage` of `core/workflow/core.py` and raises `TypeError` on the
first iteration, for any non-COMPLETE stage.  The claim matches the intent of
lines 85–133; the code path to them is broken. -/
theorem C6_legacy_retry_ceiling_bug :
    legacy_runner_iteration testStageState false =
      .error (.typeError
        "execute_stage() missing 1 required positional argument: tui_app") ∧
    legacy_failure_step 3 1 = .autoRetry 2 ∧
    legacy_failure_step 3 2 = .autoRetry 3 ∧
    legacy_failure_step 3 3 = .ceilingExceeded [.retry, .fixInDev, .quit] :=
  ⟨rfl, rfl, rfl, rfl⟩

/-! ## Stage Executor — `execute_stage` of `core/workflow/core.py` -/

/-- The result record returned by the external Validator
(`ValidationRunner.validate_stage`, a consumed interface per the spec): the
fields read by `execute_stage`. -/
structure ValidatorResult where
  success : Bool
  message : String
  output : Option String := none
  rollback_to : Option String := none
  is_fast_track : Bool := false
  needs_user_decision : Bool := false
  skipped : Bool := false
deriving DecidableEq, Repr

/-- The collaborators consulted by one `execute_stage` call (task name
fixed): the Validator's condition-based skip check and stage validation, the
artifact store, the selected backend's properties and its invocation
result. -/
structure ExecEnv where
  should_skip_stage : String → Bool
  artifact_exists : String → Bool
  preflight_result : ValidatorResult
  backend_read_only : Bool
  invoke_result : StageResult
  validate_result : ValidatorResult

/-- The observable side effects of one `execute_stage` call. -/
structure ExecEffects where
  wrote_skip_artifact : Option (String × String) := none
  prompt_built : Bool := false
  backend_invoked : Bool := false
  wrote_readonly_artifacts : Bool := false
  state_saved : Bool := false
deriving DecidableEq, Repr

/-- `execute_stage(state, tui_app, pause_check)` of `core/workflow/core.py`
(lines 234–452) as a function of the collaborator environment, returning the
stage result, the (possibly updated) run state and the effects performed.
Order as in the source: COMPLETE short-circuit; condition-based auto-skip
(before any prompt construction or backend invocation); pending-clarification
hard stop; PREFLIGHT direct validation; prompt build (minimal review prompt
for read-only backends on review stages) and backend invocation; early return
of an unsuccessful invocation result; read-only artifact materialisation;
validation mapping to Success / UserDecisionNeeded / RollbackRequired /
ValidationFailed.  An unknown rollback target name defaults to DEV in this
model (the absent `Stage.from_str` is total on the names the Validator
emits). -/
def execute_stage (env : ExecEnv) (state : WorkflowState) :
    StageResult × WorkflowState × ExecEffects :=
  let stage := state.stage
  if stage = .COMPLETE then
    (StageResult.create_success "Workflow complete", state, {})
  else if env.should_skip_stage stage.value.toUpper then
    (StageResult.skipped (stage.value ++ " skipped (condition met)"), state,
     { wrote_skip_artifact := some (stage.value, "skip_if condition met") })
  else if env.artifact_exists "QUESTIONS.md" && ! env.artifact_exists "ANSWERS.md" then
    (StageResult.clarification_needed,
     { state with clarification_required := true },
     { state_saved := true })
  else if stage = .PREFLIGHT then
    if env.preflight_result.success then
      (StageResult.create_success env.preflight_result.message, state, {})
    else
      (StageResult.preflight_failed env.preflight_result.message
        (env.preflight_result.output.getD ""), state, {})
  else
    let effects : ExecEffects := { prompt_built := true, backend_invoked := true }
    let invoke := env.invoke_result
    if ! invoke.success then
      (invoke, state, effects)
    else
      let effects :=
        if env.backend_read_only && invoke.output.isSome then
          { effects with wrote_readonly_artifacts := true }
        else effects
      let vr := env.validate_result
      if vr.success then
        (StageResult.create_success vr.message invoke.output, state, effects)
      else if vr.needs_user_decision then
        (StageResult.user_decision_needed vr.message vr.output, state, effects)
      else
        match vr.rollback_to with
        | some target =>
          (StageResult.rollback_required vr.message
            ((Stage.from_str target).getD .DEV) invoke.output vr.is_fast_track,
           state, effects)
        | none => (StageResult.validation_failed vr.message, state, effects)

/-- C7: for a non-COMPLETE stage, when the Validator's skip check reports the
stage's run condition as "skip", `execute_stage` writes the skip marker
artifact and returns `Skipped` with the run state untouched, having built no
prompt and invoked no backend. -/
theorem C7_executor_condition_skip (env : ExecEnv) (state : WorkflowState)
    (hne : state.stage ≠ .COMPLETE)
    (hskip : env.should_skip_stage state.stage.value.toUpper = true) :
    execute_stage env state =
      (StageResult.skipped (state.stage.value ++ " skipped (condition met)"),
       state,
       { wrote_skip_artifact := some (state.stage.value, "skip_if condition met"),
         prompt_built := false, backend_invoked := false,
         wrote_readonly_artifacts := false, state_saved := false }) := by
  simp [execute_stage, hne, hskip]

/-- An environment whose Validator reports every skip condition as met. -/
def alwaysSkipEnv : ExecEnv :=
  { should_skip_stage := fun _ => true
    artifact_exists := fun _ => false
    preflight_result := { success := true, message := "ok" }
    backend_read_only := false
    invoke_result := StageResult.create_success "done"
    validate_result := { success := true, message := "ok" } }

/-- C7 witness: with the MIGRATION stage current and its condition met, the
executor returns `Skipped`, writes the marker, and touches neither prompt nor
backend. -/
theorem C7_executor_condition_skip_witness :
    execute_stage alwaysSkipEnv
      { task_name := "t", task_type := "FEATURE", stage := .MIGRATION, attempt := 1 } =
      (StageResult.skipped (Stage.MIGRATION.value ++ " skipped (condition met)"),
       { task_name := "t", task_type := "FEATURE", stage := .MIGRATION, attempt := 1 },
       { wrote_skip_artifact := some (Stage.MIGRATION.value, "skip_if condition met"),
         prompt_built := false, backend_invoked := false,
         wrote_readonly_artifacts := false, state_saved := false }) :=
  C7_executor_condition_skip alwaysSkipEnv
    { task_name := "t", task_type := "FEATURE", stage := .MIGRATION, attempt := 1 }
    (by decide) rfl

/-! ## Persistence — `save_state` / `load_state` of the absent
`galangal/core/state.py` -/

/-- Modelled from the spec: the serialised form of a rollback-history entry
in the durable per-task state record (stages stored by name). -/
structure SavedRollbackEntry where
  timestamp : Nat
  from_stage : String
  to_stage : String
  reason : String
deriving DecidableEq, Repr

/-- Modelled from the spec: the durable record persisted per pipeline
instance — the full `RunState`, stages stored by name. -/
structure SavedRunState where
  task_name : String
  task_type : String
  stage : String
  attempt : Nat
  last_failure : Option String
  clarification_required : Bool
  awaiting_approval : Bool
  rollback_history : List SavedRollbackEntry
  fast_track : Bool
  passed_stages : List String
  stage_plan : Option StagePlan
deriving DecidableEq, Repr

def encode_entry (e : RollbackEntry) : SavedRollbackEntry :=
  ⟨e.timestamp, e.from_stage.value, e.to_stage.value, e.reason⟩

def decode_entry (e : SavedRollbackEntry) : Option RollbackEntry :=
  match Stage.from_str e.from_stage, Stage.from_str e.to_stage with
  | some f, some t => some ⟨e.timestamp, f, t, e.reason⟩
  | _, _ => none

/-- Modelled from the spec: serialisation of a `WorkflowState` into the
durable record. -/
def encode_state (s : WorkflowState) : SavedRunState :=
  { task_name := s.task_name, task_type := s.task_type, stage := s.stage.value,
    attempt := s.attempt, last_failure := s.last_failure,
    clarification_required := s.clarification_required,
    awaiting_approval := s.awaiting_approval,
    rollback_history := s.rollback_history.map encode_entry,
    fast_track := s.fast_track,
    passed_stages := s.passed_stages.map Stage.value,
    stage_plan := s.stage_plan }

/-- Deserialise a rollback history, `none` on any unknown stage name. -/
def decode_entries : List SavedRollbackEntry → Option (List RollbackEntry)
  | [] => some []
  | e :: r =>
    match decode_entry e, decode_entries r with
    | some e2, some r2 => some (e2 :: r2)
    | _, _ => none

/-- Deserialise a passed-stage list, `none` on any unknown stage name. -/
def decode_stages : List String → Option (List Stage)
  | [] => some []
  | n :: r =>
    match Stage.from_str n, decode_stages r with
    | some s2, some r2 => some (s2 :: r2)
    | _, _ => none

/-- Modelled from the spec: deserialisation of a durable record, `none` on an
unknown stage name. -/
def decode_state (d : SavedRunState) : Option WorkflowState :=
  match Stage.from_str d.stage with
  | none => none
  | some st =>
    match decode_entries d.rollback_history with
    | none => none
    | some hist =>
      match decode_stages d.passed_stages with
      | none => none
      | some passed =>
        some { task_name := d.task_name, task_type := d.task_type, stage := st,
               attempt := d.attempt, last_failure := d.last_failure,
               clarification_required := d.clarification_required,
               awaiting_approval := d.awaiting_approval,
               rollback_history := hist, fast_track := d.fast_track,
               passed_stages := passed, stage_plan := d.stage_plan }

/-- Modelled from the spec: `Save(RunState)` — write the encoded record under
the state's task identifier in the durable store. -/
def save_state (store : String → Option SavedRunState) (s : WorkflowState) :
    String → Option SavedRunState :=
  fun t => if t = s.task_name then some (encode_state s) else store t

/-- Modelled from the spec: `Load(taskId) -> RunState?`. -/
def load_state (store : String → Option SavedRunState) (task : String) :
    Option WorkflowState :=
  (store task).bind decode_state

theorem from_str_value (st : Stage) : Stage.from_str st.value = some st := by
  cases st <;> rfl

theorem decode_encode_entry (e : RollbackEntry) :
    decode_entry (encode_entry e) = some e := by
  cases e
  simp [encode_entry, decode_entry, from_str_value]

theorem decode_entries_encode (l : List RollbackEntry) :
    decode_entries (l.map encode_entry) = some l := by
  induction l with
  | nil => rfl
  | cons e l ih =>
    simp [decode_entries, decode_encode_entry, ih]

theorem decode_stages_encode (l : List Stage) :
    decode_stages (l.map Stage.value) = some l := by
  induction l with
  | nil => rfl
  | cons st l ih =>
    simp [decode_stages, from_str_value, ih]

/-- C8: saving a run state and loading it back under the same task
identifier reproduces the state exactly — in particular the current stage,
attempt counter, rollback history, fast-track flag and passed-stage set. -/
theorem C8_save_load_roundtrip (store : String → Option SavedRunState)
    (s : WorkflowState) :
    load_state (save_state store s) s.task_name = some s := by
  cases s
  simp [load_state, save_state, encode_state, decode_state, from_str_value,
    decode_entries_encode, decode_stages_encode]

/-! ## Backend Adapter — `ClaudeBackend.invoke` of `ai/claude.py` -/

/-- A Python exception as seen by the handlers of `ClaudeBackend.invoke`:
`subprocess.TimeoutExpired` (which has its own `except` clause) or any other
`Exception` with its message. -/
inductive PyExn where
  | timeoutExpired
  | exn (msg : String)
deriving DecidableEq, Repr

/-- The filesystem of temporary files, as an association list
path ↦ contents. -/
abbrev TempFS := List (String × String)

def fs_write (fs : TempFS) (p c : String) : TempFS := (p, c) :: fs

def fs_remove (fs : TempFS) (p : String) : TempFS :=
  fs.filter (fun kv => kv.1 ≠ p)

def fs_has (fs : TempFS) (p : String) : Bool :=
  fs.any (fun kv => kv.1 = p)

/-- Does the pattern start the character list? -/
def starts_with : List Char → List Char → Bool
  | [], _ => true
  | _ :: _, [] => false
  | p :: ps, c :: cs => p = c && starts_with ps cs

/-- Does the pattern occur anywhere in the character list? -/
def has_sublist : List Char → List Char → Bool
  | pat, [] => starts_with pat []
  | pat, c :: cs => starts_with pat (c :: cs) || has_sublist pat cs

/-- Python `pat in s` on strings. -/
def strContains (s pat : String) : Bool := has_sublist pat.data s.data

/-- Python `s.lower()`. -/
def str_lower (s : String) : String := String.mk (s.data.map Char.toLower)

/-- The shell single-quote character, written via its code point. -/
def sq : String := (Char.ofNat 39).toString

/-- `AIBackendConfig` as read by the backends: the configurable command and
argument template (`galangal/config/schema.py` is a consumed interface). -/
structure AIBackendConfig where
  command : String
  args : List String
  read_only : Bool := false
  max_turns : Nat := 200
deriving DecidableEq, Repr

/-- `AIBackend._substitute_placeholders` of `ai/base.py` for the single
`max_turns` placeholder passed by `ClaudeBackend._build_command`. -/
def substitute_placeholders (args : List String) (key value : String) :
    List String :=
  args.map (fun a => a.replace ("\x7b" ++ key ++ "\x7d") value)

def CLAUDE_DEFAULT_COMMAND : String := "claude"

/-- `ClaudeBackend.DEFAULT_ARGS` of `ai/claude.py`. -/
def CLAUDE_DEFAULT_ARGS : List String :=
  ["--output-format", "stream-json", "--verbose",
   "--max-turns", "\x7bmax_turns\x7d", "--permission-mode", "acceptEdits"]

/-- `ClaudeBackend._build_command(prompt_file, max_turns)` of `ai/claude.py`
(lines 36–65): the prompt file is `cat`-piped to the agent's stdin; only the
file path — never the prompt text — appears in the command line. -/
def claude_build_command (cfg : Option AIBackendConfig) (prompt_file : String)
    (max_turns : Nat) : String :=
  let pair : String × List String :=
    match cfg with
    | some c => (c.command, substitute_placeholders c.args "max_turns" (toString max_turns))
    | none => (CLAUDE_DEFAULT_COMMAND,
               substitute_placeholders CLAUDE_DEFAULT_ARGS "max_turns" (toString max_turns))
  "cat " ++ sq ++ prompt_file ++ sq ++ " | " ++ pair.1 ++ " " ++
    String.intercalate " " pair.2

/-- The read attempt of one iteration of the invoke loop: a line became
available, nothing was ready (idle), or `select`/`readline` raised an
`OSError`/`ValueError` (stdout closed), which breaks out of the loop. -/
inductive ReadEvent where
  | line (s : String)
  | idle
  | readErr
deriving DecidableEq, Repr

/-- One iteration of the `ClaudeBackend.invoke` poll loop as observed from
the environment: the `process.poll()` answer, the read attempt, an exception
raised by a UI callback this iteration, the `pause_check()` sample, and the
elapsed seconds at the timeout check. -/
structure ClaudeStep where
  retcode : Option Int
  read : ReadEvent
  exn : Option String
  pause : Bool
  elapsed : Nat
deriving Repr

/-- The behaviour of `process.communicate(timeout=10)` after the loop:
remaining output, an inline-caught `OSError`/`ValueError`, or a
`subprocess.TimeoutExpired` that escapes to the outer handlers. -/
inductive CommOutcome where
  | ok (remaining : String)
  | raiseOS
  | raiseTimeout
deriving DecidableEq, Repr

/-- The environment of one `ClaudeBackend.invoke` call.  `debug` is whether
`GALANGAL_DEBUG` is set; `mkdirFail` a failure of the debug-log directory
creation (which happens before the `try` block); `tempFail` a failure of the
temp-file creation; `popenFail` a failure of `subprocess.Popen`;
`resultLine` the payload of the first parsed `"type": "result"` stream line
(the `json` module is a collaborator; its parse errors are caught inline). -/
structure ClaudeEnv where
  debug : Bool
  mkdirFail : Option String
  freshPath : String
  tempFail : Option String
  popenFail : Option String
  hasPauseCheck : Bool
  steps : List ClaudeStep
  finalRet : Int
  comm : CommOutcome
  resultLine : Option String
  timeout : Nat
  max_turns : Nat
  config : Option AIBackendConfig

/-- How the invoke poll loop was left. -/
inductive ClaudeLoopExit where
  | broke (acc : List String)
  | pausedExit (acc : List String)
  | timeoutExit (acc : List String)
  | raised (e : String) (acc : List String)
deriving DecidableEq, Repr

/-- The poll loop of `ClaudeBackend.invoke` (`ai/claude.py` lines 123–169).
Per iteration, in source order: one non-blocking read (a `select`/`readline`
`OSError`/`ValueError` breaks out of the loop), an uncaught callback
exception propagates, break once `poll()` returned, graceful termination on a
pause request, force kill past the timeout.  `none` = the trace ended with
the process still running. -/
def claude_loop (env : ClaudeEnv) :
    List ClaudeStep → List String → Option ClaudeLoopExit
  | [], _ => none
  | s :: rest, acc0 =>
    if s.read = .readErr then some (.broke acc0)
    else
      let acc := match s.read with
                 | .line str => acc0 ++ [str]
                 | _ => acc0
      match s.exn with
      | some e => some (.raised e acc)
      | none =>
        match s.retcode with
        | some _ => some (.broke acc)
        | none =>
          if env.hasPauseCheck && s.pause then some (.pausedExit acc)
          else if s.elapsed > env.timeout then some (.timeoutExit acc)
          else claude_loop env rest acc

/-- The tail of `ClaudeBackend.invoke` after a loop break (`ai/claude.py`
lines 171–205): collect remaining output (`TimeoutExpired` escapes to the
outer handlers), detect the max-turns condition from the output text, then
map the exit code to success or error. -/
def claude_finish (env : ClaudeEnv) (acc : List String) :
    Except PyExn StageResult :=
  let full_output := String.join acc
  if strContains (str_lower full_output) "max turns" ||
     strContains (str_lower full_output) "reached max" then
    .ok (StageResult.max_turns full_output)
  else
    let result_text := env.resultLine.getD ""
    if env.finalRet = 0 then
      .ok (StageResult.create_success
        (if result_text = "" then "Stage completed" else result_text)
        (some full_output))
    else
      .ok (StageResult.error
        ("Claude failed (exit " ++ toString env.finalRet ++ ")")
        (some full_output))

/-- `process.communicate(timeout=10)` and the finish sequence. -/
def claude_after_loop (env : ClaudeEnv) (acc : List String) :
    Except PyExn StageResult :=
  match env.comm with
  | .raiseTimeout => .error .timeoutExpired
  | .raiseOS => claude_finish env acc
  | .ok remaining =>
    claude_finish env (if remaining = "" then acc else acc ++ [remaining])

/-- The body of `ClaudeBackend.invoke` inside the temp-file scope: spawn,
poll loop, post-processing.  `none` = the call never returns (the trace
ended with the process still running). -/
def claude_invoke_body (env : ClaudeEnv) :
    Option (Except PyExn StageResult) :=
  match env.popenFail with
  | some m => some (.error (.exn m))
  | none =>
    match claude_loop env env.steps [] with
    | none => none
    | some (.raised e _) => some (.error (.exn e))
    | some (.pausedExit _) => some (.ok StageResult.paused)
    | some (.timeoutExit _) => some (.ok (StageResult.timeout env.timeout))
    | some (.broke acc) => some (claude_after_loop env acc)

/-- The observable outcome of one `ClaudeBackend.invoke` call: the returned
stage result (`none` = the call never returns), the final temp filesystem,
an exception escaping the call, the shell command started, and the temp file
written. -/
structure ClaudeOutcome where
  result : Option StageResult
  fs : TempFS
  raised : Option String
  command : Option String
  wrote : Option (String × String)
deriving Repr

/-- `ClaudeBackend.invoke` from the temp-file scope inwards (`ai/claude.py`
lines 95–214).  Modelled from the spec: the absent `_temp_file` context
manager creates the transient prompt file on entry and removes it on every
exit, exceptions included (scoped resource acquisition).  The outer handlers
map `TimeoutExpired` to a `TimedOut` result and any other exception to an
`Error` result. -/
def claude_invoke_inner (env : ClaudeEnv) (prompt : String) (fs0 : TempFS) :
    ClaudeOutcome :=
  match env.tempFail with
  | some m =>
    { result := some (StageResult.error ("Claude invocation error: " ++ m)),
      fs := fs0, raised := none, command := none, wrote := none }
  | none =>
    let fs1 := fs_write fs0 env.freshPath prompt
    let cmd := claude_build_command env.config env.freshPath env.max_turns
    match claude_invoke_body env with
    | none =>
      { result := none, fs := fs1, raised := none, command := some cmd,
        wrote := some (env.freshPath, prompt) }
    | some out =>
      let fs2 := fs_remove fs1 env.freshPath
      match out with
      | .ok r =>
        { result := some r, fs := fs2, raised := none, command := some cmd,
          wrote := some (env.freshPath, prompt) }
      | .error .timeoutExpired =>
        { result := some (StageResult.timeout env.timeout), fs := fs2,
          raised := none, command := some cmd,
          wrote := some (env.freshPath, prompt) }
      | .error (.exn m) =>
        { result := some (StageResult.error ("Claude invocation error: " ++ m)),
          fs := fs2, raised := none, command := some cmd,
          wrote := some (env.freshPath, prompt) }

/-- `ClaudeBackend.invoke` (`ai/claude.py` lines 67–214).  When
`GALANGAL_DEBUG` is set, the debug-log directory is created before the `try`
block, so a failure there propagates to the caller. -/
def claude_invoke (env : ClaudeEnv) (prompt : String) (fs0 : TempFS) :
    ClaudeOutcome :=
  if env.debug then
    match env.mkdirFail with
    | some m =>
      { result := none, fs := fs0, raised := some m, command := none,
        wrote := none }
    | none => claude_invoke_inner env prompt fs0
  else claude_invoke_inner env prompt fs0

/-! ## Backend Adapter — `CodexBackend.invoke` of `ai/codex.py` -/

def CODEX_DEFAULT_COMMAND : String := "codex"

/-- `CodexBackend.DEFAULT_ARGS` of `ai/codex.py`. -/
def CODEX_DEFAULT_ARGS : List String :=
  ["exec", "--full-auto", "--output-schema", "\x7bschema_file\x7d",
   "-o", "\x7boutput_file\x7d"]

/-- `AIBackend._substitute_placeholders` for the two placeholders passed by
`CodexBackend._build_command`. -/
def codex_substitute (args : List String) (schema_file output_file : String) :
    List String :=
  args.map (fun a =>
    (a.replace "\x7bschema_file\x7d" schema_file).replace
      "\x7boutput_file\x7d" output_file)

/-- The per-argument quoting of `CodexBackend._build_command`: wrap in single
quotes when the argument contains a space. -/
def codex_quote (a : String) : String :=
  if a.contains ' ' then sq ++ a ++ sq else a

/-- `CodexBackend._build_command(prompt_file, schema_file, output_file)` of
`ai/codex.py` (lines 87–124): the prompt file is `cat`-piped to stdin; only
file paths appear in the command line. -/
def codex_build_command (cfg : Option AIBackendConfig)
    (prompt_file schema_file output_file : String) : String :=
  let pair : String × List String :=
    match cfg with
    | some c => (c.command, codex_substitute c.args schema_file output_file)
    | none => (CODEX_DEFAULT_COMMAND,
               codex_substitute CODEX_DEFAULT_ARGS schema_file output_file)
  "cat " ++ sq ++ prompt_file ++ sq ++ " | " ++ pair.1 ++ " " ++
    String.intercalate " " (pair.2.map codex_quote)

/-- One iteration of the `CodexBackend.invoke` poll loop: the `poll()`
answer, an exception from `pause_check` or a UI callback, the pause sample,
the elapsed seconds.  (Read attempts only feed the UI; their `select` errors
are caught inline.) -/
structure CodexStep where
  retcode : Option Int
  exn : Option String
  pause : Bool
  elapsed : Nat
deriving Repr

/-- How the codex poll loop was left. -/
inductive CodexExit where
  | broke
  | pausedExit
  | timeoutExit
  | raised (e : String)
deriving DecidableEq, Repr

/-- The environment of one `CodexBackend.invoke` call: failures of the three
temp-file creations and of `Popen`, the loop trace, the
`communicate(timeout=10)` failure, the exit code, the remaining stdout, and
the state of the structured output file (written by the external codex
process; `jsonDecision` is the parsed decision, `none` = invalid JSON). -/
structure CodexEnv where
  promptPath : String
  schemaPath : String
  outputPath : String
  promptFail : Option String
  schemaFail : Option String
  mkstempFail : Option String
  popenFail : Option String
  hasPauseCheck : Bool
  steps : List CodexStep
  commFail : Option String
  finalRet : Int
  stdoutRest : String
  outputExists : Bool
  outputContent : String
  jsonDecision : Option String
  timeout : Nat
  config : Option AIBackendConfig

/-- The poll loop of `CodexBackend.invoke` (`ai/codex.py` lines 195–259).
Per iteration, in source order: break once `poll()` returned, an uncaught
exception propagates, graceful termination on a pause request, force kill
past the timeout.  `none` = the trace ended with the process still
running. -/
def codex_loop (env : CodexEnv) : List CodexStep → Option CodexExit
  | [] => none
  | s :: rest =>
    match s.retcode with
    | some _ => some .broke
    | none =>
      match s.exn with
      | some e => some (.raised e)
      | none =>
        if env.hasPauseCheck && s.pause then some .pausedExit
        else if s.elapsed > env.timeout then some .timeoutExit
        else codex_loop env rest

/-- The `finally` clause of `CodexBackend.invoke` (lines 334–341): unlink
every temp path that was assigned. -/
def codex_cleanup (fs : TempFS) (paths : List String) : TempFS :=
  paths.foldl fs_remove fs

/-- The observable outcome of one `CodexBackend.invoke` call. -/
structure CodexOutcome where
  result : Option StageResult
  fs : TempFS
  command : Option String
  wrote : Option (String × String)
deriving Repr

/-- The post-loop tail of `CodexBackend.invoke` (lines 260–330): collect
output (`communicate` failures reach the catch-all), then map exit code,
output-file presence and JSON validity to the stage result. -/
def codex_finish (env : CodexEnv) : StageResult :=
  match env.commFail with
  | some m => StageResult.error ("Codex invocation error: " ++ m)
  | none =>
    if env.finalRet ≠ 0 then
      StageResult.error ("Codex failed (exit " ++ toString env.finalRet ++ ")")
        (some env.stdoutRest)
    else if ! env.outputExists then
      StageResult.error
        "Codex did not produce output file. Check if --output-schema is supported."
        (some ("Expected output at: " ++ env.outputPath ++ "\nOutput:\n" ++
          env.stdoutRest))
    else
      match env.jsonDecision with
      | none => StageResult.error "Codex output is not valid JSON"
          (some env.outputContent)
      | some d => StageResult.create_success ("Codex review complete: " ++ d)
          (some env.outputContent)

/-- `CodexBackend.invoke` (`ai/codex.py` lines 126–341): sequential creation
of the three temp files, spawn, poll loop, post-processing; the catch-all
`except Exception` maps any exception to an `Error` result; the `finally`
clause unlinks every temp path assigned so far on every exit. -/
def codex_invoke (env : CodexEnv) (prompt : String) (fs0 : TempFS) :
    CodexOutcome :=
  match env.promptFail with
  | some m =>
    { result := some (StageResult.error ("Codex invocation error: " ++ m)),
      fs := fs0, command := none, wrote := none }
  | none =>
    let fs1 := fs_write fs0 env.promptPath prompt
    match env.schemaFail with
    | some m =>
      { result := some (StageResult.error ("Codex invocation error: " ++ m)),
        fs := codex_cleanup fs1 [env.promptPath], command := none,
        wrote := some (env.promptPath, prompt) }
    | none =>
      let fs2 := fs_write fs1 env.schemaPath "REVIEW_OUTPUT_SCHEMA"
      match env.mkstempFail with
      | some m =>
        { result := some (StageResult.error ("Codex invocation error: " ++ m)),
          fs := codex_cleanup fs2 [env.promptPath, env.schemaPath],
          command := none, wrote := some (env.promptPath, prompt) }
      | none =>
        let fs3 := fs_write fs2 env.outputPath ""
        let allPaths := [env.promptPath, env.schemaPath, env.outputPath]
        let cmd := codex_build_command env.config env.promptPath env.schemaPath
          env.outputPath
        match env.popenFail with
        | some m =>
          { result := some (StageResult.error ("Codex invocation error: " ++ m)),
            fs := codex_cleanup fs3 allPaths, command := some cmd,
            wrote := some (env.promptPath, prompt) }
        | none =>
          let fs4 := if env.outputExists then
              fs_write fs3 env.outputPath env.outputContent
            else fs_remove fs3 env.outputPath
          match codex_loop env env.steps with
          | none =>
            { result := none, fs := fs3, command := some cmd,
              wrote := some (env.promptPath, prompt) }
          | some .pausedExit =>
            { result := some StageResult.paused,
              fs := codex_cleanup fs4 allPaths, command := some cmd,
              wrote := some (env.promptPath, prompt) }
          | some .timeoutExit =>
            { result := some (StageResult.timeout env.timeout),
              fs := codex_cleanup fs4 allPaths, command := some cmd,
              wrote := some (env.promptPath, prompt) }
          | some (.raised e) =>
            { result := some (StageResult.error ("Codex invocation error: " ++ e)),
              fs := codex_cleanup fs4 allPaths, command := some cmd,
              wrote := some (env.promptPath, prompt) }
          | some .broke =>
            { result := some (codex_finish env),
              fs := codex_cleanup fs4 allPaths, command := some cmd,
              wrote := some (env.promptPath, prompt) }

/-! ## Temp-file lemmas -/

theorem fs_has_remove (fs : TempFS) (p : String) :
    fs_has (fs_remove fs p) p = false := by
  rw [Bool.eq_false_iff]
  intro hc
  simp only [fs_has, fs_remove, List.any_eq_true] at hc
  obtain ⟨kv, hmem, hp⟩ := hc
  rw [List.mem_filter] at hmem
  simp only [decide_eq_true_eq] at hp hmem
  exact hmem.2 hp

theorem fs_has_remove_of_not (fs : TempFS) (p q : String)
    (h : fs_has fs p = false) : fs_has (fs_remove fs q) p = false := by
  rw [Bool.eq_false_iff] at h ⊢
  intro hc
  apply h
  simp only [fs_has, fs_remove, List.any_eq_true] at hc ⊢
  obtain ⟨kv, hmem, hp⟩ := hc
  exact ⟨kv, (List.mem_filter.mp hmem).1, hp⟩

theorem fs_has_cleanup_of_not (paths : List String) :
    ∀ (fs : TempFS) (p : String), fs_has fs p = false →
      fs_has (codex_cleanup fs paths) p = false := by
  induction paths with
  | nil => intro fs p h; exact h
  | cons q rest ih =>
    intro fs p h
    exact ih (fs_remove fs q) p (fs_has_remove_of_not fs p q h)

theorem fs_has_cleanup_of_mem (paths : List String) :
    ∀ (fs : TempFS) (p : String), p ∈ paths →
      fs_has (codex_cleanup fs paths) p = false := by
  induction paths with
  | nil => intro fs p h; exact absurd h (List.not_mem_nil p)
  | cons q rest ih =>
    intro fs p h
    by_cases hpq : p = q
    · subst hpq
      exact fs_has_cleanup_of_not rest (fs_remove fs p) p (fs_has_remove fs p)
    · rcases List.mem_cons.mp h with h1 | h1
      · exact absurd h1 hpq
      · exact ih (fs_remove fs q) p h1

theorem fs_has_write_ne (fs : TempFS) (k c p : String) (h : p ≠ k) :
    fs_has (fs_write fs k c) p = fs_has fs p := by
  have hk : decide (k = p) = false := by
    simp only [decide_eq_false_iff_not]
    exact fun hk => h hk.symm
  simp [fs_write, fs_has, hk]

theorem claude_invoke_of_nodebug (env : ClaudeEnv) (prompt : String)
    (fs0 : TempFS) (hdbg : env.debug = false) :
    claude_invoke env prompt fs0 = claude_invoke_inner env prompt fs0 := by
  simp [claude_invoke, hdbg]

theorem claude_invoke_cleanup (env : ClaudeEnv) (prompt : String) (fs0 : TempFS)
    (hdbg : env.debug = false)
    (h0 : fs_has fs0 env.freshPath = false)
    (hret : (claude_invoke env prompt fs0).result.isSome = true) :
    fs_has (claude_invoke env prompt fs0).fs env.freshPath = false := by
  rw [claude_invoke_of_nodebug env prompt fs0 hdbg] at hret ⊢
  cases htf : env.tempFail with
  | some m => simpa [claude_invoke_inner, htf] using h0
  | none =>
    cases hb : claude_invoke_body env with
    | none =>
      exfalso
      simp [claude_invoke_inner, htf, hb] at hret
    | some out =>
      cases out with
      | ok r => simp [claude_invoke_inner, htf, hb, fs_has_remove]
      | error e =>
        cases e <;> simp [claude_invoke_inner, htf, hb, fs_has_remove]

theorem claude_invoke_wrote (env : ClaudeEnv) (prompt : String) (fs0 : TempFS)
    (hdbg : env.debug = false) (htf : env.tempFail = none) :
    (claude_invoke env prompt fs0).wrote = some (env.freshPath, prompt) := by
  rw [claude_invoke_of_nodebug env prompt fs0 hdbg]
  cases hb : claude_invoke_body env with
  | none => simp [claude_invoke_inner, htf, hb]
  | some out =>
    cases out with
    | ok r => simp [claude_invoke_inner, htf, hb]
    | error e => cases e <;> simp [claude_invoke_inner, htf, hb]

theorem claude_invoke_command (env : ClaudeEnv) (prompt : String) (fs0 : TempFS)
    (hdbg : env.debug = false) (htf : env.tempFail = none) :
    (claude_invoke env prompt fs0).command =
      some (claude_build_command env.config env.freshPath env.max_turns) := by
  rw [claude_invoke_of_nodebug env prompt fs0 hdbg]
  cases hb : claude_invoke_body env with
  | none => simp [claude_invoke_inner, htf, hb]
  | some out =>
    cases out with
    | ok r => simp [claude_invoke_inner, htf, hb]
    | error e => cases e <;> simp [claude_invoke_inner, htf, hb]

theorem claude_command_independent (env : ClaudeEnv) (p1 p2 : String)
    (fs0 : TempFS) :
    (claude_invoke env p1 fs0).command = (claude_invoke env p2 fs0).command := by
  have inner : (claude_invoke_inner env p1 fs0).command =
      (claude_invoke_inner env p2 fs0).command := by
    cases htf : env.tempFail with
    | some m => simp [claude_invoke_inner, htf]
    | none =>
      cases hb : claude_invoke_body env with
      | none => simp [claude_invoke_inner, htf, hb]
      | some out =>
        cases out with
        | ok r => simp [claude_invoke_inner, htf, hb]
        | error e => cases e <;> simp [claude_invoke_inner, htf, hb]
  cases hdbg : env.debug with
  | false => simpa [claude_invoke, hdbg] using inner
  | true =>
    cases hmk : env.mkdirFail with
    | some m => simp [claude_invoke, hdbg, hmk]
    | none => simpa [claude_invoke, hdbg, hmk] using inner

theorem codex_invoke_cleanup (env : CodexEnv) (prompt : String) (gs0 : TempFS)
    (p : String)
    (hp : p = env.promptPath ∨ p = env.schemaPath ∨ p = env.outputPath)
    (h0 : fs_has gs0 p = false)
    (hret : (codex_invoke env prompt gs0).result.isSome = true) :
    fs_has (codex_invoke env prompt gs0).fs p = false := by
  have hpall : p ∈ [env.promptPath, env.schemaPath, env.outputPath] := by
    rcases hp with h | h | h <;> simp [h]
  cases hpf : env.promptFail with
  | some m => simpa [codex_invoke, hpf] using h0
  | none =>
    cases hsf : env.schemaFail with
    | some m =>
      simp only [codex_invoke, hpf, hsf]
      by_cases hmem : p ∈ [env.promptPath]
      · exact fs_has_cleanup_of_mem _ _ _ hmem
      · have hne : p ≠ env.promptPath := by simpa using hmem
        exact fs_has_cleanup_of_not _ _ _
          (by rw [fs_has_write_ne _ _ _ _ hne]; exact h0)
    | none =>
      cases hmf : env.mkstempFail with
      | some m =>
        simp only [codex_invoke, hpf, hsf, hmf]
        by_cases hmem : p ∈ [env.promptPath, env.schemaPath]
        · exact fs_has_cleanup_of_mem _ _ _ hmem
        · have hne : p ≠ env.promptPath ∧ p ≠ env.schemaPath := by
            constructor <;> intro hcontra <;> apply hmem <;> simp [hcontra]
          exact fs_has_cleanup_of_not _ _ _
            (by rw [fs_has_write_ne _ _ _ _ hne.2, fs_has_write_ne _ _ _ _ hne.1]
                exact h0)
      | none =>
        cases hof : env.popenFail with
        | some m =>
          simp only [codex_invoke, hpf, hsf, hmf, hof]
          exact fs_has_cleanup_of_mem _ _ _ hpall
        | none =>
          cases hl : codex_loop env env.steps with
          | none =>
            exfalso
            simp [codex_invoke, hpf, hsf, hmf, hof, hl] at hret
          | some ex =>
            cases ex <;> simp only [codex_invoke, hpf, hsf, hmf, hof, hl] <;>
              exact fs_has_cleanup_of_mem _ _ _ hpall

theorem codex_invoke_wrote (env : CodexEnv) (prompt : String) (gs0 : TempFS)
    (hpf : env.promptFail = none) :
    (codex_invoke env prompt gs0).wrote = some (env.promptPath, prompt) := by
  cases hsf : env.schemaFail with
  | some m => simp [codex_invoke, hpf, hsf]
  | none =>
    cases hmf : env.mkstempFail with
    | some m => simp [codex_invoke, hpf, hsf, hmf]
    | none =>
      cases hof : env.popenFail with
      | some m => simp [codex_invoke, hpf, hsf, hmf, hof]
      | none =>
        cases hl : codex_loop env env.steps with
        | none => simp [codex_invoke, hpf, hsf, hmf, hof, hl]
        | some ex => cases ex <;> simp [codex_invoke, hpf, hsf, hmf, hof, hl]

theorem codex_command_independent (env : CodexEnv) (p1 p2 : String)
    (gs0 : TempFS) :
    (codex_invoke env p1 gs0).command = (codex_invoke env p2 gs0).command := by
  cases hpf : env.promptFail with
  | some m => simp [codex_invoke, hpf]
  | none =>
    cases hsf : env.schemaFail with
    | some m => simp [codex_invoke, hpf, hsf]
    | none =>
      cases hmf : env.mkstempFail with
      | some m => simp [codex_invoke, hpf, hsf, hmf]
      | none =>
        cases hof : env.popenFail with
        | some m => simp [codex_invoke, hpf, hsf, hmf, hof]
        | none =>
          cases hl : codex_loop env env.steps with
          | none => simp [codex_invoke, hpf, hsf, hmf, hof, hl]
          | some ex => cases ex <;> simp [codex_invoke, hpf, hsf, hmf, hof, hl]

/-- C9: both backend adapters write the prompt to a transient temp file and
pipe it to the external command via stdin — the shell command they build is
independent of the prompt text and references only the temp file path — and
every temp file they create is gone from the filesystem by the time `invoke`
returns, on every return path including the exception paths. -/
theorem C9_backend_temp_file_hygiene (cenv : ClaudeEnv) (xenv : CodexEnv)
    (prompt p1 p2 : String) (fs0 gs0 : TempFS)
    (hdbg : cenv.debug = false)
    (hfresh : fs_has fs0 cenv.freshPath = false)
    (hcret : (claude_invoke cenv prompt fs0).result.isSome = true)
    (hgp : fs_has gs0 xenv.promptPath = false)
    (hgs : fs_has gs0 xenv.schemaPath = false)
    (hgo : fs_has gs0 xenv.outputPath = false)
    (hxret : (codex_invoke xenv prompt gs0).result.isSome = true) :
    fs_has (claude_invoke cenv prompt fs0).fs cenv.freshPath = false ∧
    (cenv.tempFail = none →
      (claude_invoke cenv prompt fs0).wrote = some (cenv.freshPath, prompt)) ∧
    (claude_invoke cenv p1 fs0).command = (claude_invoke cenv p2 fs0).command ∧
    (cenv.tempFail = none →
      (claude_invoke cenv prompt fs0).command =
        some (claude_build_command cenv.config cenv.freshPath cenv.max_turns)) ∧
    fs_has (codex_invoke xenv prompt gs0).fs xenv.promptPath = false ∧
    fs_has (codex_invoke xenv prompt gs0).fs xenv.schemaPath = false ∧
    fs_has (codex_invoke xenv prompt gs0).fs xenv.outputPath = false ∧
    (xenv.promptFail = none →
      (codex_invoke xenv prompt gs0).wrote = some (xenv.promptPath, prompt)) ∧
    (codex_invoke xenv p1 gs0).command = (codex_invoke xenv p2 gs0).command := by
  refine ⟨claude_invoke_cleanup cenv prompt fs0 hdbg hfresh hcret,
    fun htf => claude_invoke_wrote cenv prompt fs0 hdbg htf,
    claude_command_independent cenv p1 p2 fs0,
    fun htf => claude_invoke_command cenv prompt fs0 hdbg htf,
    codex_invoke_cleanup xenv prompt gs0 xenv.promptPath (Or.inl rfl) hgp hxret,
    codex_invoke_cleanup xenv prompt gs0 xenv.schemaPath (Or.inr (Or.inl rfl)) hgs hxret,
    codex_invoke_cleanup xenv prompt gs0 xenv.outputPath (Or.inr (Or.inr rfl)) hgo hxret,
    fun hpf => codex_invoke_wrote xenv prompt gs0 hpf,
    codex_command_independent xenv p1 p2 gs0⟩

/-- A Claude invocation that starts, exits with code 0 and yields a result
line. -/
def claudeOkEnv : ClaudeEnv :=
  { debug := false, mkdirFail := none, freshPath := "/tmp/prompt1.txt",
    tempFail := none, popenFail := none, hasPauseCheck := false,
    steps := [{ retcode := some 0, read := .idle, exn := none, pause := false,
                elapsed := 0 }],
    finalRet := 0, comm := .ok "", resultLine := some "done",
    timeout := 100, max_turns := 200, config := none }

/-- A Codex invocation that creates its three temp files, exits with code 0
and produces a valid structured output file. -/
def codexOkEnv : CodexEnv :=
  { promptPath := "/tmp/p.txt", schemaPath := "/tmp/s.json",
    outputPath := "/tmp/o.json",
    promptFail := none, schemaFail := none, mkstempFail := none,
    popenFail := none, hasPauseCheck := false,
    steps := [{ retcode := some 0, exn := none, pause := false, elapsed := 0 }],
    commFail := none, finalRet := 0, stdoutRest := "",
    outputExists := true, outputContent := "structured", jsonDecision := some "APPROVE",
    timeout := 100, config := none }

/-- C9 witness: the temp-file hygiene at one concrete successful run of each
backend, starting from an empty temp filesystem. -/
theorem C9_backend_temp_file_hygiene_witness :
    fs_has (claude_invoke claudeOkEnv "hello" []).fs claudeOkEnv.freshPath = false ∧
    (claudeOkEnv.tempFail = none →
      (claude_invoke claudeOkEnv "hello" []).wrote =
        some (claudeOkEnv.freshPath, "hello")) ∧
    (claude_invoke claudeOkEnv "a" []).command =
      (claude_invoke claudeOkEnv "b" []).command ∧
    (claudeOkEnv.tempFail = none →
      (claude_invoke claudeOkEnv "hello" []).command =
        some (claude_build_command claudeOkEnv.config claudeOkEnv.freshPath
          claudeOkEnv.max_turns)) ∧
    fs_has (codex_invoke codexOkEnv "hello" []).fs codexOkEnv.promptPath = false ∧
    fs_has (codex_invoke codexOkEnv "hello" []).fs codexOkEnv.schemaPath = false ∧
    fs_has (codex_invoke codexOkEnv "hello" []).fs codexOkEnv.outputPath = false ∧
    (codexOkEnv.promptFail = none →
      (codex_invoke codexOkEnv "hello" []).wrote =
        some (codexOkEnv.promptPath, "hello")) ∧
    (codex_invoke codexOkEnv "a" []).command =
      (codex_invoke codexOkEnv "b" []).command :=
  C9_backend_temp_file_hygiene claudeOkEnv codexOkEnv "hello" "a" "b" [] []
    rfl rfl (by rfl) rfl rfl rfl (by rfl)

/-- A Claude invocation whose `process.communicate(timeout=10)` raises
`subprocess.TimeoutExpired` after the loop broke on a poll result. -/
def commTimeoutEnv : ClaudeEnv :=
  { debug := false, mkdirFail := none, freshPath := "/tmp/prompt2.txt",
    tempFail := none, popenFail := none, hasPauseCheck := false,
    steps := [{ retcode := some 0, read := .idle, exn := none, pause := false,
                elapsed := 0 }],
    finalRet := 0, comm := .raiseTimeout, resultLine := none,
    timeout := 14400, max_turns := 200, config := none }

/-- C10 counterexample: with `GALANGAL_DEBUG` unset, a
`subprocess.TimeoutExpired` raised during the invocation is caught but mapped
to a `TimedOut` result, not to an `Error` result carrying the exception
message — refuting "any exception … is caught and mapped to an Error
result". -/
theorem C10_claude_exception_counterexample :
    (claude_invoke commTimeoutEnv "p" []).result =
      some (StageResult.timeout 14400) ∧
    (StageResult.timeout 14400).type = StageResultType.TIMEOUT ∧
    StageResultType.TIMEOUT ≠ StageResultType.ERROR :=
  ⟨rfl, rfl, by decide⟩

/-- C10 (amended): with `GALANGAL_DEBUG` unset, `ClaudeBackend.invoke` never
propagates an exception: a failure creating the temp file or starting the
subprocess, and any uncaught callback exception in the poll loop, are caught
and mapped to an `Error` result carrying the exception message, while a
`subprocess.TimeoutExpired` escaping `communicate` is caught and mapped to a
`TimedOut` result. -/
theorem C10_claude_exceptions_amended (env : ClaudeEnv) (prompt : String)
    (fs0 : TempFS) (hdbg : env.debug = false) :
    (claude_invoke env prompt fs0).raised = none ∧
    (∀ m, env.tempFail = some m →
      (claude_invoke env prompt fs0).result =
        some (StageResult.error ("Claude invocation error: " ++ m))) ∧
    (∀ m, env.tempFail = none → env.popenFail = some m →
      (claude_invoke env prompt fs0).result =
        some (StageResult.error ("Claude invocation error: " ++ m))) ∧
    (∀ e acc, env.tempFail = none → env.popenFail = none →
      claude_loop env env.steps [] = some (.raised e acc) →
      (claude_invoke env prompt fs0).result =
        some (StageResult.error ("Claude invocation error: " ++ e))) ∧
    (∀ acc, env.tempFail = none → env.popenFail = none →
      claude_loop env env.steps [] = some (.broke acc) →
      env.comm = .raiseTimeout →
      (claude_invoke env prompt fs0).result =
        some (StageResult.timeout env.timeout)) := by
  rw [claude_invoke_of_nodebug env prompt fs0 hdbg]
  refine ⟨?_, ?_, ?_, ?_, ?_⟩
  · cases htf : env.tempFail with
    | some m => simp [claude_invoke_inner, htf]
    | none =>
      cases hb : claude_invoke_body env with
      | none => simp [claude_invoke_inner, htf, hb]
      | some out =>
        cases out with
        | ok r => simp [claude_invoke_inner, htf, hb]
        | error e => cases e <;> simp [claude_invoke_inner, htf, hb]
  · intro m htf
    simp [claude_invoke_inner, htf]
  · intro m htf hpo
    simp [claude_invoke_inner, htf, claude_invoke_body, hpo]
  · intro e acc htf hpo hl
    simp [claude_invoke_inner, htf, claude_invoke_body, hpo, hl]
  · intro acc htf hpo hl hcomm
    simp [claude_invoke_inner, htf, claude_invoke_body, hpo, hl,
      claude_after_loop, hcomm]

/-- A Claude invocation whose temp-file creation fails. -/
def tempFailEnv : ClaudeEnv :=
  { debug := false, mkdirFail := none, freshPath := "/tmp/prompt3.txt",
    tempFail := some "disk full", popenFail := none, hasPauseCheck := false,
    steps := [], finalRet := 0, comm := .ok "", resultLine := none,
    timeout := 10, max_turns := 5, config := none }

/-- C10 witness: a failed temp-file creation is caught and mapped to an
`Error` result, with no exception escaping the call. -/
theorem C10_claude_exceptions_amended_witness :
    (claude_invoke tempFailEnv "p" []).raised = none ∧
    (claude_invoke tempFailEnv "p" []).result =
      some (StageResult.error ("Claude invocation error: " ++ "disk full")) :=
  ⟨(C10_claude_exceptions_amended tempFailEnv "p" [] rfl).1,
   (C10_claude_exceptions_amended tempFailEnv "p" [] rfl).2.1 "disk full" rfl⟩

end Galangal
